import Mathlib

/-!
Verification of the rtctree component mirror (src/rtctree/component.py and
src/rtctree/sdo.py): a shallow embedding of the state-synchronization engine
(lazy cache, push-event observer, state-merge fold, execution-context
indexing) together with theorems settling the specification claims.

Conventions of the embedding:
  * Python integers are Nat (all values involved are small non-negative
    enumeration constants, handles, and indices).
  * The remote CORBA object is a pure record `Proxy` of the values its
    synchronous calls return; every remote invocation performed by a code
    path is recorded in an explicit `List RemoteAction` trace, so that
    "issues exactly one remote call / no remote call" is checkable.
  * The per-component cache (`self._xxx` fields of `Component`) is the
    record `Cache`; Python `None` slots are `Option.none`, and Python
    truthiness of a slot (`if not self._ports`) is the `truthy` test below,
    which treats an empty cached list like an unset slot exactly as the
    source does.
  * Python exceptions are the `PyError` type; fallible code returns
    `Except PyError`.  A reference to an undefined Python name is the
    `NameError` the interpreter raises at that point.
  * Leading underscores of Python method names are dropped (Lean reserves
    them), e.g. `_set_state_in_ec` becomes `Component.set_state_in_ec`.
-/

namespace Component

/-- Constant for a component in the inactive state (component.py). -/
def INACTIVE : Nat := 1
/-- Constant for a component in the active state. -/
def ACTIVE : Nat := 2
/-- Constant for a component in the error state. -/
def ERROR : Nat := 3
/-- Constant for a component in an unknown state. -/
def UNKNOWN : Nat := 4
/-- Constant for a component in the created state. -/
def CREATED : Nat := 5

/-- Constant for execution context event "attached". -/
def EC_ATTACHED : Nat := 11
/-- Constant for execution context event "detached". -/
def EC_DETACHED : Nat := 12
/-- Constant for execution context event "rate_changed". -/
def EC_RATE_CHANGED : Nat := 13
/-- Constant for execution context event "startup". -/
def EC_STARTUP : Nat := 14
/-- Constant for execution context event "shutdown". -/
def EC_SHUTDOWN : Nat := 15

/-- Constant for port event "add". -/
def PORT_ADD : Nat := 21
/-- Constant for port event "remove". -/
def PORT_REMOVE : Nat := 22
/-- Constant for port event "connect". -/
def PORT_CONNECT : Nat := 23
/-- Constant for port event "disconnect". -/
def PORT_DISCONNECT : Nat := 24

/-- Constant for configuration set event "update_set". -/
def CFG_UPDATE_SET : Nat := 31
/-- Constant for configuration set event "update_param". -/
def CFG_UPDATE_PARAM : Nat := 32
/-- Constant for configuration set event "set_active_set". -/
def CFG_SET_SET : Nat := 33
/-- Constant for configuration set event "add_set". -/
def CFG_ADD_SET : Nat := 34
/-- Constant for configuration set event "remove_set". -/
def CFG_REMOVE_SET : Nat := 35
/-- Constant for configuration set event "activate_set". -/
def CFG_ACTIVATE_SET : Nat := 36

end Component

namespace RTC

/-- Remote lifecycle enum RTC.LifeCycleState: created. -/
def CREATED_STATE : Nat := 0
/-- Remote lifecycle enum: inactive. -/
def INACTIVE_STATE : Nat := 1
/-- Remote lifecycle enum: active. -/
def ACTIVE_STATE : Nat := 2
/-- Remote lifecycle enum: error. -/
def ERROR_STATE : Nat := 3

end RTC

namespace Component

/-- The inner `merge_state(current, new)` function of the `state` property
(component.py lines 825-839), translated branch for branch. -/
def merge_state (current new : Nat) : Nat :=
  if new = ERROR then ERROR
  else if new = ACTIVE ∧ current ≠ ERROR then ACTIVE
  else if new = INACTIVE ∧ current ∉ [ACTIVE, ERROR] then INACTIVE
  else if new = CREATED ∧ current ∉ [ACTIVE, ERROR, INACTIVE] then CREATED
  else if current ∉ [ACTIVE, ERROR, INACTIVE, CREATED] then UNKNOWN
  else current

/-- The pure core of the `state` property (component.py lines 841-851): if
both EC-state lists are empty the result is UNKNOWN, otherwise fold
`merge_state` left-to-right over the owned then the participating states,
starting from CREATED.  (The source wraps each loop in a truthiness guard
`if self.owned_ec_states:`; folding an empty list is the identity, so the
guards are dropped here.) -/
def merged_state (owned_ec_states participating_ec_states : List Nat) : Nat :=
  if owned_ec_states = [] ∧ participating_ec_states = [] then UNKNOWN
  else
    participating_ec_states.foldl merge_state
      (owned_ec_states.foldl merge_state CREATED)

end Component

/-- The five lifecycle state constants a cached EC state ranges over. -/
def VALID_STATES : List Nat :=
  [Component.INACTIVE, Component.ACTIVE, Component.ERROR,
   Component.UNKNOWN, Component.CREATED]

/-- Python exceptions raised by the embedded code paths.  The rtctree
exception classes keep their names; `NameError` / `AttributeError` /
`ValueError` / `KeyError` / `IndexError` are the interpreter errors the
source can raise. -/
inductive PyError
  | BadECIndexError (ec_index : Nat)
  | NoECWithHandleError
  | NameError (missing : String)
  | AttributeError (attr : String)
  | ValueError (arg : String)
  | KeyError (key : String)
  | IndexError
deriving DecidableEq, Repr

/-- Modelled from the spec: `ExecutionContext` lives in
rtctree/exec_context.py, which is not part of the analysed sources.  Per the
spec it is a lightweight reference to one remote execution context (here the
opaque id `obj`) plus a per-component integer handle, with a "set running"
flag mutator; construction wraps the pair without remote calls. -/
structure ExecutionContext where
  obj : Nat
  handle : Nat
  running : Bool
deriving DecidableEq, Repr

/-- Modelled from the spec: `ExecutionContext._set_running` flag mutator. -/
def ExecutionContext.set_running (ec : ExecutionContext) (value : Bool) :
    ExecutionContext :=
  { ec with running := value }

/-- Modelled from the spec: ports live in rtctree/ports.py, which is not
part of the analysed sources; per the spec a port is identified by its name
(unique within a component).  The remote port object is modelled by its
profile name, so `parse_port` wraps the name. -/
structure Port where
  name : String
deriving DecidableEq, Repr

/-- Modelled from the spec: `ports.parse_port(port_obj, owner)` wraps a
remote port object into the local port representation. -/
def parse_port (port_obj : String) : Port :=
  Port.mk port_obj

/-- The raw record returned by the remote
`get_configuration_set(name)` call: description plus parameter
name/value pairs (`configuration_data` after `nvlist_to_dict`). -/
structure CSProfile where
  description : String
  configuration_data : List (String × String)
deriving DecidableEq, Repr

/-- Modelled from the spec: `ConfigurationSet` lives in
rtctree/config_set.py, not part of the analysed sources.  Per the spec it is
a description plus a mapping of parameter name to string value; `_reload`
replaces both, `set_param` updates one parameter. -/
structure ConfigurationSet where
  description : String
  data : List (String × String)
deriving DecidableEq, Repr

/-- Association-list update used for Python dict item assignment: replace
the first binding of `key`, or append a new one. -/
def assocSet (l : List (String × α)) (key : String) (v : α) :
    List (String × α) :=
  match l with
  | [] => [(key, v)]
  | (k, w) :: r => if k = key then (key, v) :: r else (k, w) :: assocSet r key v

/-- Association-list lookup (Python dict read; `none` is a KeyError at the
call site). -/
def assocGet (l : List (String × α)) (key : String) : Option α :=
  match l with
  | [] => none
  | (k, w) :: r => if k = key then some w else assocGet r key

/-- Association-list deletion (Python `del d[key]`). -/
def assocDel (l : List (String × α)) (key : String) : List (String × α) :=
  match l with
  | [] => []
  | (k, w) :: r => if k = key then r else (k, w) :: assocDel r key

/-- Modelled from the spec: `ConfigurationSet.set_param(param, value)`. -/
def ConfigurationSet.set_param (cs : ConfigurationSet) (param value : String) :
    ConfigurationSet :=
  { cs with data := assocSet cs.data param value }

/-- The remote object proxy (the CORBA stub `self._obj` plus the EC-side
calls reached through it): a pure record of what each synchronous remote
call returns.  Remote EC references and port objects are opaque ids. -/
structure Proxy where
  get_ports : List String
  get_owned_contexts : List Nat
  get_participating_contexts : List Nat
  get_context_handle : Nat → Nat
  get_context : Nat → Nat
  is_alive : Nat → Bool
  get_component_state : Nat → Nat
  get_component_profile : List (String × String)
  get_configuration_set : String → CSProfile

/-- One remote invocation, recorded in order of issue. -/
inductive RemoteAction
  | get_ports
  | get_owned_contexts
  | get_participating_contexts
  | get_context_handle (ec_obj : Nat)
  | get_context (ec_handle : Nat)
  | is_alive (ec_obj : Nat)
  | get_component_state (ec_obj : Nat)
  | activate_component (ec_obj : Nat)
  | deactivate_component (ec_obj : Nat)
  | reset_component (ec_obj : Nat)
  | get_port_profile (port_obj : String)
  | reparse_connections (port_name : String)
  | get_component_profile
  | get_configuration_set (set_name : String)
deriving DecidableEq, Repr

/-- The lazily-populated cache fields of one `Component` mirror
(`self._owned_ecs`, `self._ports`, ... in component.py).  `none` is the
Python `None` that `_reset_xxx` stores. -/
structure Cache where
  profile : Option (List (String × String)) := none
  owned_ecs : Option (List ExecutionContext) := none
  owned_ec_states : Option (List Nat) := none
  participating_ecs : Option (List ExecutionContext) := none
  participating_ec_states : Option (List Nat) := none
  ports : Option (List Port) := none
  conf_sets : Option (List (String × ConfigurationSet)) := none
  active_conf_set : Option String := none
  last_heartbeat : Nat := 0
deriving DecidableEq, Repr

/-- Python truthiness of a lazily-cached collection slot: `None` and the
empty collection are both falsy, so `if not self._ports:` re-populates in
either case. -/
def truthy : Option (List α) → Bool
  | none => false
  | some l => !l.isEmpty

/-- Decidable equality for `Except` values (not provided by the core
library), needed to evaluate concrete handler results. -/
instance [DecidableEq e] [DecidableEq a] : DecidableEq (Except e a)
  | Except.ok x, Except.ok y =>
      decidable_of_iff (x = y) (by rw [Except.ok.injEq])
  | Except.ok x, Except.error f => Decidable.isFalse Except.noConfusion
  | Except.error f, Except.ok y => Decidable.isFalse Except.noConfusion
  | Except.error f, Except.error g =>
      decidable_of_iff (f = g) (by rw [Except.error.injEq])

/-- Structural worker for `py_split`: split a character list on a
separator (keeping empty groups, like Python `str.split(sep)`). -/
def splitCharAux (sep : Char) : List Char → List (List Char)
  | [] => [[]]
  | c :: rest =>
    let r := splitCharAux sep rest
    if c = sep then [] :: r
    else match r with
      | [] => [[c]]
      | g :: gs => (c :: g) :: gs

/-- Python `s.split(sep)` for a one-character separator, as the observer
uses it on ":" "," and "." (structurally recursive so concrete
notifications evaluate inside proofs; `String.splitOn` agrees but does not
reduce definitionally). -/
def py_split (s : String) (sep : Char) : List String :=
  (splitCharAux sep s.data).map (fun cs => String.mk cs)

/-- One decimal digit of a Python `int()` literal. -/
def py_digit? (c : Char) : Option Nat :=
  if c.isDigit then some (c.toNat - 48) else none

/-- Structural accumulator for `py_int?`. -/
def py_int_aux : List Char → Option Nat → Option Nat
  | [], acc => acc
  | c :: rest, acc =>
    match py_digit? c, acc with
    | some d, some n => py_int_aux rest (some (n * 10 + d))
    | some d, none => py_int_aux rest (some d)
    | none, _ => none

/-- Python `int(s)` for the non-negative decimal handles the observer
receives; a non-numeric string is a ValueError at the call site
(`none` here). -/
def py_int? (s : String) : Option Nat :=
  if s.data = [] then none else py_int_aux s.data none

namespace Component

/-- `_get_ec_state(ec)` (component.py lines 1227-1240): ask the proxy
whether the component is alive in the EC; if so pull the remote lifecycle
enum through the EC's "get state" call and map it, defaulting to UNKNOWN;
if not alive the state is CREATED.  Returns the state together with the
remote calls issued. -/
def get_ec_state (p : Proxy) (ec : ExecutionContext) :
    Nat × List RemoteAction :=
  if p.is_alive ec.obj then
    let ec_state := p.get_component_state ec.obj
    (if ec_state = RTC.ACTIVE_STATE then ACTIVE
     else if ec_state = RTC.ERROR_STATE then ERROR
     else if ec_state = RTC.INACTIVE_STATE then INACTIVE
     else UNKNOWN,
     [RemoteAction.is_alive ec.obj, RemoteAction.get_component_state ec.obj])
  else (CREATED, [RemoteAction.is_alive ec.obj])

/-- The lazy `owned_ecs` property (component.py lines 772-780): if the slot
is falsy (None or empty), pull the owned context list and wrap each context
with its handle; otherwise serve the cache with no remote call. -/
def owned_ecs (p : Proxy) (c : Cache) :
    List ExecutionContext × Cache × List RemoteAction :=
  if truthy c.owned_ecs then (c.owned_ecs.getD [], c, [])
  else
    let objs := p.get_owned_contexts
    let ecs := objs.map (fun ec => ExecutionContext.mk ec (p.get_context_handle ec) false)
    (ecs, { c with owned_ecs := some ecs },
     RemoteAction.get_owned_contexts :: objs.map (fun ec => RemoteAction.get_context_handle ec))

/-- The lazy `participating_ecs` property (component.py lines 799-809). -/
def participating_ecs (p : Proxy) (c : Cache) :
    List ExecutionContext × Cache × List RemoteAction :=
  if truthy c.participating_ecs then (c.participating_ecs.getD [], c, [])
  else
    let objs := p.get_participating_contexts
    let ecs := objs.map (fun ec => ExecutionContext.mk ec (p.get_context_handle ec) false)
    (ecs, { c with participating_ecs := some ecs },
     RemoteAction.get_participating_contexts :: objs.map (fun ec => RemoteAction.get_context_handle ec))

/-- The lazy `owned_ec_states` property (component.py lines 758-770): if the
slot is falsy, read `owned_ecs` (itself lazy) and pull each EC's state;
an empty EC list caches an empty state list without further calls. -/
def owned_ec_states (p : Proxy) (c : Cache) :
    List Nat × Cache × List RemoteAction :=
  if truthy c.owned_ec_states then (c.owned_ec_states.getD [], c, [])
  else
    let (ecs, c1, a1) := owned_ecs p c
    if ecs.isEmpty then ([], { c1 with owned_ec_states := some [] }, a1)
    else
      let pulls := ecs.map (fun ec => get_ec_state p ec)
      let states := pulls.map Prod.fst
      (states, { c1 with owned_ec_states := some states },
       a1 ++ (pulls.map Prod.snd).flatten)

/-- The lazy `participating_ec_states` property (component.py lines
782-797). -/
def participating_ec_states (p : Proxy) (c : Cache) :
    List Nat × Cache × List RemoteAction :=
  if truthy c.participating_ec_states then
    (c.participating_ec_states.getD [], c, [])
  else
    let (ecs, c1, a1) := participating_ecs p c
    if ecs.isEmpty then ([], { c1 with participating_ec_states := some [] }, a1)
    else
      let pulls := ecs.map (fun ec => get_ec_state p ec)
      let states := pulls.map Prod.fst
      (states, { c1 with participating_ec_states := some states },
       a1 ++ (pulls.map Prod.snd).flatten)

/-- The lazy `ports` property (component.py lines 965-972): on a falsy slot
pull the remote port list once and parse each port. -/
def ports (p : Proxy) (c : Cache) : List Port × Cache × List RemoteAction :=
  if truthy c.ports then (c.ports.getD [], c, [])
  else
    let v := p.get_ports.map (fun port => parse_port port)
    (v, { c with ports := some v }, [RemoteAction.get_ports])

/-- The `state` property (component.py lines 817-851): read the two EC
state lists and merge them.  The source re-reads the two properties inside
the truthiness tests and loop headers; every re-read returns the same value
and leaves the cache unchanged (populating is idempotent), so each property
is read once here. -/
def state (p : Proxy) (c : Cache) : Nat × Cache × List RemoteAction :=
  let (os, c1, a1) := owned_ec_states p c
  let (ps, c2, a2) := participating_ec_states p c1
  (merged_state os ps, c2, a1 ++ a2)

end Component

/-- Placeholder EC used only under an index guard that makes `getD`
hit a real element (Python indexing would raise before reaching it). -/
def ecDefault : ExecutionContext := ExecutionContext.mk 0 0 false

namespace Component

/-- `activate_in_ec(ec_index)` (component.py lines 532-552): indices past
the owned count address the participating list after subtracting that
count; out of range raises `BadECIndexError` (with the already-shifted
index, as the source does); otherwise the selected EC's remote
`activate_component` is invoked. -/
def activate_in_ec (p : Proxy) (c : Cache) (ec_index : Nat) :
    Cache × List RemoteAction × Except PyError Unit :=
  let (ol, c1, a1) := owned_ecs p c
  if ec_index ≥ ol.length then
    let i2 := ec_index - ol.length
    let (pl, c2, a2) := participating_ecs p c1
    if i2 ≥ pl.length then
      (c2, a1 ++ a2, Except.error (PyError.BadECIndexError i2))
    else
      (c2, a1 ++ a2 ++ [RemoteAction.activate_component (pl.getD i2 ecDefault).obj],
       Except.ok ())
  else
    (c1, a1 ++ [RemoteAction.activate_component (ol.getD ec_index ecDefault).obj],
     Except.ok ())

/-- `deactivate_in_ec(ec_index)` (component.py lines 554-574): same
indexing rule, remote `deactivate_component` on the target. -/
def deactivate_in_ec (p : Proxy) (c : Cache) (ec_index : Nat) :
    Cache × List RemoteAction × Except PyError Unit :=
  let (ol, c1, a1) := owned_ecs p c
  if ec_index ≥ ol.length then
    let i2 := ec_index - ol.length
    let (pl, c2, a2) := participating_ecs p c1
    if i2 ≥ pl.length then
      (c2, a1 ++ a2, Except.error (PyError.BadECIndexError i2))
    else
      (c2, a1 ++ a2 ++ [RemoteAction.deactivate_component (pl.getD i2 ecDefault).obj],
       Except.ok ())
  else
    (c1, a1 ++ [RemoteAction.deactivate_component (ol.getD ec_index ecDefault).obj],
     Except.ok ())

/-- `reset_in_ec(ec_index)` (component.py lines 678-697): same indexing
rule, remote `reset_component` on the target. -/
def reset_in_ec (p : Proxy) (c : Cache) (ec_index : Nat) :
    Cache × List RemoteAction × Except PyError Unit :=
  let (ol, c1, a1) := owned_ecs p c
  if ec_index ≥ ol.length then
    let i2 := ec_index - ol.length
    let (pl, c2, a2) := participating_ecs p c1
    if i2 ≥ pl.length then
      (c2, a1 ++ a2, Except.error (PyError.BadECIndexError i2))
    else
      (c2, a1 ++ a2 ++ [RemoteAction.reset_component (pl.getD i2 ecDefault).obj],
       Except.ok ())
  else
    (c1, a1 ++ [RemoteAction.reset_component (ol.getD ec_index ecDefault).obj],
     Except.ok ())

/-- `state_in_ec(ec_index)` (component.py lines 699-718): same indexing
rule; the selected cached state is returned (Python raises IndexError if
the states list is shorter than the EC list). -/
def state_in_ec (p : Proxy) (c : Cache) (ec_index : Nat) :
    Cache × List RemoteAction × Except PyError Nat :=
  let (ol, c1, a1) := owned_ecs p c
  if ec_index ≥ ol.length then
    let i2 := ec_index - ol.length
    let (pl, c2, a2) := participating_ecs p c1
    if i2 ≥ pl.length then
      (c2, a1 ++ a2, Except.error (PyError.BadECIndexError i2))
    else
      let (ps, c3, a3) := participating_ec_states p c2
      if i2 < ps.length then (c3, a1 ++ a2 ++ a3, Except.ok (ps.getD i2 0))
      else (c3, a1 ++ a2 ++ a3, Except.error PyError.IndexError)
  else
    let (os, c2, a2) := owned_ec_states p c1
    if ec_index < os.length then (c2, a1 ++ a2, Except.ok (os.getD ec_index 0))
    else (c2, a1 ++ a2, Except.error PyError.IndexError)

/-- `refresh_state_in_ec(ec_index)` (component.py lines 720-746): same
indexing rule; the target EC's state is re-pulled through `_get_ec_state`
and written into the cached states list, then returned. -/
def refresh_state_in_ec (p : Proxy) (c : Cache) (ec_index : Nat) :
    Cache × List RemoteAction × Except PyError Nat :=
  let (ol, c1, a1) := owned_ecs p c
  if ec_index ≥ ol.length then
    let i2 := ec_index - ol.length
    let (pl, c2, a2) := participating_ecs p c1
    if i2 ≥ pl.length then
      (c2, a1 ++ a2, Except.error (PyError.BadECIndexError i2))
    else
      let (st, sa) := get_ec_state p (pl.getD i2 ecDefault)
      let (ps, c3, a3) := participating_ec_states p c2
      if i2 < ps.length then
        ({ c3 with participating_ec_states := some (ps.set i2 st) },
         a1 ++ a2 ++ sa ++ a3, Except.ok st)
      else (c3, a1 ++ a2 ++ sa ++ a3, Except.error PyError.IndexError)
  else
    let (st, sa) := get_ec_state p (ol.getD ec_index ecDefault)
    let (os, c2, a2) := owned_ec_states p c1
    if ec_index < os.length then
      ({ c2 with owned_ec_states := some (os.set ec_index st) },
       a1 ++ sa ++ a2, Except.ok st)
    else (c2, a1 ++ sa ++ a2, Except.error PyError.IndexError)

/-- The state → display-string mapping shared by `get_state_string` and
`get_state_in_ec_string` (component.py lines 661-670), for the
`add_colour=False` result (the colour codes come from the external
`utils` module).  A value outside the five constants leaves the Python
local `result` unbound, a NameError at the return. -/
def state_string_plain (st : Nat) : Except PyError String :=
  if st = INACTIVE then Except.ok "Inactive"
  else if st = ACTIVE then Except.ok "Active"
  else if st = ERROR then Except.ok "Error"
  else if st = UNKNOWN then Except.ok "Unknown"
  else if st = CREATED then Except.ok "Created"
  else Except.error (PyError.NameError "result")

/-- `get_state_in_ec_string(ec_index, add_colour=False)` (component.py
lines 641-676): same indexing rule as `state_in_ec`, then the string
mapping. -/
def get_state_in_ec_string (p : Proxy) (c : Cache) (ec_index : Nat) :
    Cache × List RemoteAction × Except PyError String :=
  let (ol, c1, a1) := owned_ecs p c
  if ec_index ≥ ol.length then
    let i2 := ec_index - ol.length
    let (pl, c2, a2) := participating_ecs p c1
    if i2 ≥ pl.length then
      (c2, a1 ++ a2, Except.error (PyError.BadECIndexError i2))
    else
      let (ps, c3, a3) := participating_ec_states p c2
      if i2 < ps.length then
        (c3, a1 ++ a2 ++ a3, state_string_plain (ps.getD i2 0))
      else (c3, a1 ++ a2 ++ a3, Except.error PyError.IndexError)
  else
    let (os, c2, a2) := owned_ec_states p c1
    if ec_index < os.length then
      (c2, a1 ++ a2, state_string_plain (os.getD ec_index 0))
    else (c2, a1 ++ a2, Except.error PyError.IndexError)

/-- `get_ec(ec_handle)` (component.py lines 576-593): scan the owned list
first, then the participating list, returning the first EC whose handle
matches; no match raises `NoECWithHandleError`. -/
def get_ec (p : Proxy) (c : Cache) (ec_handle : Nat) :
    Except PyError ExecutionContext × Cache × List RemoteAction :=
  let (ol, c1, a1) := owned_ecs p c
  match ol.find? (fun ec => ec.handle == ec_handle) with
  | some ec => (Except.ok ec, c1, a1)
  | none =>
    let (pl, c2, a2) := participating_ecs p c1
    match pl.find? (fun ec => ec.handle == ec_handle) with
    | some ec => (Except.ok ec, c2, a1 ++ a2)
    | none => (Except.error PyError.NoECWithHandleError, c2, a1 ++ a2)

/-- `get_port_by_name(port_name)` (component.py lines 883-889): scan the
(lazily read) port list, returning the first name match or None. -/
def get_port_by_name (p : Proxy) (c : Cache) (port_name : String) :
    Option Port × Cache × List RemoteAction :=
  let (pts, c1, a1) := ports p c
  (pts.find? (fun port => port.name == port_name), c1, a1)

/-- `has_port_by_name(port_name)` (component.py lines 902-907): truthiness
of the `get_port_by_name` result. -/
def has_port_by_name (p : Proxy) (c : Cache) (port_name : String) :
    Bool × Cache × List RemoteAction :=
  let (r, c1, a1) := get_port_by_name p c port_name
  (r.isSome, c1, a1)

end Component

namespace Component

/-- `_set_state_in_ec(ec_handle, state)` (component.py lines 1356-1367),
the mutation applied by an RTC_STATUS push: NOTE that although the
parameter is called `ec_handle`, the source resolves it with the same
owned-length subtraction used for logical indices (not a handle scan), and
raises `BadECIndexError` when out of range.  On success the cached state at
that logical index is overwritten in place and the `rtc_status` callbacks
are dispatched outside the mutex.  The returned list names the callback
categories invoked. -/
def set_state_in_ec (p : Proxy) (c : Cache) (ec_handle : Nat) (st : Nat) :
    Cache × List RemoteAction × Except PyError (List String) :=
  let (ol, c1, a1) := owned_ecs p c
  if ec_handle ≥ ol.length then
    let h2 := ec_handle - ol.length
    let (pl, c2, a2) := participating_ecs p c1
    if h2 ≥ pl.length then
      (c2, a1 ++ a2, Except.error (PyError.BadECIndexError h2))
    else
      let (ps, c3, a3) := participating_ec_states p c2
      if h2 < ps.length then
        ({ c3 with participating_ec_states := some (ps.set h2 st) },
         a1 ++ a2 ++ a3, Except.ok ["rtc_status"])
      else (c3, a1 ++ a2 ++ a3, Except.error PyError.IndexError)
  else
    let (os, c2, a2) := owned_ec_states p c1
    if ec_handle < os.length then
      ({ c2 with owned_ec_states := some (os.set ec_handle st) },
       a1 ++ a2, Except.ok ["rtc_status"])
    else (c2, a1 ++ a2, Except.error PyError.IndexError)

/-- `_ec_event(ec_handle, event)` (component.py lines 1183-1225).  The
source as written always raises a NameError:

  * the local helper `get_ec` (lines 1184-1199) tests the undefined name
    `del_ec` (line 1193) after its side-effect-free scan of the owned
    list, so the Detached / Startup / Shutdown branches raise
    `NameError: del_ec` before mutating anything;
  * the callback dispatch (line 1225) passes the undefined name `state`,
    so the Attached, RateChanged and unrecognised-event paths raise
    `NameError: state` at the callback line — after the Attached branch
    has already appended the new EC to `self._participating_ecs` in place
    (a direct field access: an unset (None) field raises AttributeError
    on `.append`, a set field is mutated even though the exception then
    propagates).

No branch ever reaches `_call_cb`, so the ok-result (callback list) is
never produced. -/
def ec_event (p : Proxy) (c : Cache) (ec_handle : Nat) (event : Nat) :
    Cache × List RemoteAction × Except PyError (List String) :=
  if event = EC_ATTACHED then
    match c.participating_ecs with
    | none => (c, [], Except.error (PyError.AttributeError "append"))
    | some l =>
        let grown := l ++ [ExecutionContext.mk (p.get_context ec_handle) ec_handle false]
        ({ c with participating_ecs := some grown },
         [RemoteAction.get_context ec_handle],
         Except.error (PyError.NameError "state"))
  else if event = EC_DETACHED then
    (c, [], Except.error (PyError.NameError "del_ec"))
  else if event = EC_RATE_CHANGED then
    (c, [], Except.error (PyError.NameError "state"))
  else if event = EC_STARTUP then
    (c, [], Except.error (PyError.NameError "del_ec"))
  else if event = EC_SHUTDOWN then
    (c, [], Except.error (PyError.NameError "del_ec"))
  else (c, [], Except.error (PyError.NameError "state"))

/-- The local helper `get_port_obj(port_name)` of `_port_event`
(component.py lines 1282-1287): scan the remote port list, pulling each
scanned port's profile, until the name matches; no match raises
ValueError. -/
def port_event_get_port_obj (p : Proxy) (port_name : String) :
    Except PyError String × List RemoteAction :=
  let objs := p.get_ports
  match objs.findIdx? (fun o => o == port_name) with
  | some i =>
      (Except.ok (objs.getD i ""),
       RemoteAction.get_ports ::
         (objs.take (i + 1)).map (fun o => RemoteAction.get_port_profile o))
  | none =>
      (Except.error (PyError.ValueError port_name),
       RemoteAction.get_ports ::
         objs.map (fun o => RemoteAction.get_port_profile o))

/-- `_port_event(port_name, event)` (component.py lines 1281-1308): only a
truthy `self._ports` slot is mutated; Add resolves the new port with one
remote port-list scan and appends, Remove drops the named port (a missing
name makes `list.remove(None)` raise ValueError), Connect / Disconnect
ask the named port to reparse its own connections (a missing name raises
AttributeError on None).  The `port_event` callbacks run after the mutex
is released; a raised error skips them. -/
def port_event (p : Proxy) (c : Cache) (port_name : String) (event : Nat) :
    Cache × List RemoteAction × Except PyError (List String) :=
  if truthy c.ports then
    let pts := c.ports.getD []
    if event = PORT_ADD then
      match port_event_get_port_obj p port_name with
      | (Except.ok p_obj, a) =>
          ({ c with ports := some (pts ++ [parse_port p_obj]) }, a,
           Except.ok ["port_event"])
      | (Except.error e, a) => (c, a, Except.error e)
    else if event = PORT_REMOVE then
      match pts.find? (fun port => port.name == port_name) with
      | some prt =>
          ({ c with ports := some (pts.erase prt) }, [],
           Except.ok ["port_event"])
      | none => (c, [], Except.error (PyError.ValueError "list.remove"))
    else if event = PORT_CONNECT ∨ event = PORT_DISCONNECT then
      match pts.find? (fun port => port.name == port_name) with
      | some prt =>
          (c, [RemoteAction.reparse_connections prt.name],
           Except.ok ["port_event"])
      | none =>
          (c, [], Except.error (PyError.AttributeError "reparse_connections"))
    else (c, [], Except.ok ["port_event"])
  else (c, [], Except.ok ["port_event"])

/-- `_config_event(name, event)` (component.py lines 1121-1148): mutations
apply only when `self._conf_sets` is truthy; UpdateSet / UpdateParameter /
AddSet pull the affected set's fresh data through one
`get_configuration_set` call, RemoveSet deletes locally, ActivateSet
updates the active-set name locally.  Dict access on a missing key raises
KeyError; the `config_event` callbacks run after the mutex is released. -/
def config_event (p : Proxy) (c : Cache) (name : String) (event : Nat) :
    Cache × List RemoteAction × Except PyError (List String) :=
  if truthy c.conf_sets then
    let css := c.conf_sets.getD []
    if event = CFG_UPDATE_SET then
      let cs := p.get_configuration_set name
      match assocGet css name with
      | some _ =>
          let css2 := assocSet css name (ConfigurationSet.mk cs.description cs.configuration_data)
          ({ c with conf_sets := some css2 },
           [RemoteAction.get_configuration_set name], Except.ok ["config_event"])
      | none =>
          (c, [RemoteAction.get_configuration_set name],
           Except.error (PyError.KeyError name))
    else if event = CFG_UPDATE_PARAM then
      match py_split name '.' with
      | [cset, param] =>
        let cs := p.get_configuration_set cset
        let data := cs.configuration_data
        match assocGet css cset with
        | some old =>
          match assocGet data param with
          | some v =>
              let css2 := assocSet css cset (old.set_param param v)
              ({ c with conf_sets := some css2 },
               [RemoteAction.get_configuration_set cset],
               Except.ok ["config_event"])
          | none =>
              (c, [RemoteAction.get_configuration_set cset],
               Except.error (PyError.KeyError param))
        | none =>
            (c, [RemoteAction.get_configuration_set cset],
             Except.error (PyError.KeyError cset))
      | _ => (c, [], Except.error (PyError.ValueError name))
    else if event = CFG_ADD_SET then
      let cs := p.get_configuration_set name
      let css2 := assocSet css name (ConfigurationSet.mk cs.description cs.configuration_data)
      ({ c with conf_sets := some css2 },
       [RemoteAction.get_configuration_set name], Except.ok ["config_event"])
    else if event = CFG_REMOVE_SET then
      match assocGet css name with
      | some _ =>
          ({ c with conf_sets := some (assocDel css name) }, [],
           Except.ok ["config_event"])
      | none => (c, [], Except.error (PyError.KeyError name))
    else if event = CFG_ACTIVATE_SET then
      ({ c with active_conf_set := some name }, [], Except.ok ["config_event"])
    else (c, [], Except.ok ["config_event"])
  else (c, [], Except.ok ["config_event"])

/-- `_parse_profile` (component.py lines 1264-1279): one blocking
`get_component_profile` pull stored into the cache.  The profile record is
kept opaque here (the source unpacks its fields; no claim inspects
them). -/
def parse_profile (p : Proxy) (c : Cache) : Cache × List RemoteAction :=
  ({ c with profile := some p.get_component_profile },
   [RemoteAction.get_component_profile])

/-- `_profile_update(items)` (component.py lines 1310-1314): re-pull the
whole profile, then dispatch the `component_profile` callbacks. -/
def profile_update (p : Proxy) (c : Cache) (items : List String) :
    Cache × List RemoteAction × Except PyError (List String) :=
  let (c1, a1) := parse_profile p c
  (c1, a1, Except.ok ["component_profile"])

/-- `_heartbeat(kind)` (component.py lines 1242-1245): update the
last-heartbeat timestamp (the wall clock is the explicit `now`
parameter), then dispatch. -/
def heartbeat (now : Nat) (c : Cache) (kind : String) :
    Cache × List RemoteAction × Except PyError (List String) :=
  ({ c with last_heartbeat := now }, [], Except.ok ["heartbeat"])

/-- `_fsm_event(kind, hint)` (component.py lines 1247-1249): pure
pass-through to the callbacks, no cache mutation. -/
def fsm_event (c : Cache) (kind hint : String) :
    Cache × List RemoteAction × Except PyError (List String) :=
  (c, [], Except.ok ["fsm_event"])

end Component

namespace RTCObserver

/-- Decode the RTC_STATUS status tag (sdo.py lines 35-40).  An
unrecognised tag is passed through undecoded by the Python code (the raw
string flows on into the cache); it is modelled by 0, a value that — like
the string — matches none of the state constants. -/
def decode_rtc_status (status : String) : Nat :=
  if status = "INACTIVE" then Component.INACTIVE
  else if status = "ACTIVE" then Component.ACTIVE
  else if status = "ERROR" then Component.ERROR
  else 0

/-- Decode the EC_STATUS event tag (sdo.py lines 44-53); an unrecognised
tag is passed through undecoded (modelled by 0, matching no event
constant, which makes `_ec_event` behave identically). -/
def decode_ec_status (event : String) : Nat :=
  if event = "ATTACHED" then Component.EC_ATTACHED
  else if event = "DETACHED" then Component.EC_DETACHED
  else if event = "RATE_CHANGED" then Component.EC_RATE_CHANGED
  else if event = "STARTUP" then Component.EC_STARTUP
  else if event = "SHUTDOWN" then Component.EC_SHUTDOWN
  else 0

/-- Decode the PORT_PROFILE event tag (sdo.py lines 57-64). -/
def decode_port_profile (event : String) : Nat :=
  if event = "ADD" then Component.PORT_ADD
  else if event = "REMOVE" then Component.PORT_REMOVE
  else if event = "CONNECT" then Component.PORT_CONNECT
  else if event = "DISCONNECT" then Component.PORT_DISCONNECT
  else 0

/-- Decode the CONFIGURATION event tag (sdo.py lines 68-79). -/
def decode_configuration (event : String) : Nat :=
  if event = "UPDATE_CONFIGSET" then Component.CFG_UPDATE_SET
  else if event = "UPDATE_PARAMETER" then Component.CFG_UPDATE_PARAM
  else if event = "SET_CONFIG_SET" then Component.CFG_SET_SET
  else if event = "ADD_CONFIG_SET" then Component.CFG_ADD_SET
  else if event = "REMOVE_CONFIG_SET" then Component.CFG_REMOVE_SET
  else if event = "ACTIVATE_CONFIG_SET" then Component.CFG_ACTIVATE_SET
  else 0

/-- `RTCObserver.update_status(kind, hint)` (sdo.py lines 29-84): the push
notification entry point.  It splits the hint, decodes the per-kind tag
and dispatches to the target component's mutation handler.  Note there is
no exception handling anywhere in the method: whatever a handler raises
propagates to the transport-owned caller.  Python tuple unpacking of a
split that does not yield exactly two parts, and `int()` on a non-numeric
handle, raise ValueError.  `now` is the wall clock passed to the
heartbeat handler. -/
def update_status (now : Nat) (p : Proxy) (c : Cache) (kind hint : String) :
    Cache × List RemoteAction × Except PyError (List String) :=
  if kind = "COMPONENT_PROFILE" then
    Component.profile_update p c ((py_split hint ',').map (fun x => x.trim))
  else if kind = "RTC_STATUS" then
    match py_split hint ':' with
    | [status, ec_handle] =>
      match py_int? ec_handle with
      | some h => Component.set_state_in_ec p c h (decode_rtc_status status)
      | none => (c, [], Except.error (PyError.ValueError ec_handle))
    | _ => (c, [], Except.error (PyError.ValueError hint))
  else if kind = "EC_STATUS" then
    match py_split hint ':' with
    | [event, ec_handle] =>
      match py_int? ec_handle with
      | some h => Component.ec_event p c h (decode_ec_status event)
      | none => (c, [], Except.error (PyError.ValueError ec_handle))
    | _ => (c, [], Except.error (PyError.ValueError hint))
  else if kind = "PORT_PROFILE" then
    match py_split hint ':' with
    | [event, port_name] =>
        Component.port_event p c port_name (decode_port_profile event)
    | _ => (c, [], Except.error (PyError.ValueError hint))
  else if kind = "CONFIGURATION" then
    match py_split hint ':' with
    | [event, arg] =>
        Component.config_event p c arg (decode_configuration event)
    | _ => (c, [], Except.error (PyError.ValueError hint))
  else if kind = "HEARTBEAT" ∨ kind = "RTC_HEARTBEAT" ∨ kind = "EC_HEARTBEAT" then
    Component.heartbeat now c kind
  else if kind = "FSM_PROFILE" ∨ kind = "FSM_STATUS" ∨ kind = "FSM_STRUCTURE" then
    Component.fsm_event c kind hint
  else (c, [], Except.ok [])

end RTCObserver

/-!
Lock-ordering model for the push-event handlers.  Each handler's body is a
`with self._mutex:` block followed (on the non-raising paths) by a
`self._call_cb(...)` dispatch; the traces below transcribe, per branch of
each handler, the sequence of lock acquisitions/releases, in-memory cache
mutations, blocking remote calls, and callback dispatches, in the order the
source executes them.  A raising branch ends at its `release` (the `with`
statement releases on the way out) and never reaches the callback line.
-/

/-- One step of a handler body, for the lock-ordering model. -/
inductive LockAction
  | acquire
  | release
  | mutate
  | remote
  | callback
deriving DecidableEq, Repr

/-- `callbacksOutsideLockAux d tr`: no callback step occurs while the lock
depth is positive (the mutex is reentrant, so nested `with` blocks add
depth). -/
def callbacksOutsideLockAux : Nat → List LockAction → Bool
  | _, [] => true
  | d, LockAction.acquire :: r => callbacksOutsideLockAux (d + 1) r
  | d, LockAction.release :: r => callbacksOutsideLockAux (d - 1) r
  | d, LockAction.callback :: r => d == 0 && callbacksOutsideLockAux d r
  | d, _ :: r => callbacksOutsideLockAux d r

/-- No cache mutation (nor lock acquisition) happens after a callback has
been dispatched: the mutation phase completes before the callbacks run. -/
def mutationsBeforeCallbacksAux : Bool → List LockAction → Bool
  | _, [] => true
  | _, LockAction.callback :: r => mutationsBeforeCallbacksAux true r
  | seen, LockAction.mutate :: r =>
      !seen && mutationsBeforeCallbacksAux seen r
  | seen, LockAction.acquire :: r =>
      !seen && mutationsBeforeCallbacksAux seen r
  | seen, _ :: r => mutationsBeforeCallbacksAux seen r

/-- Branch trace of `_config_event` (component.py lines 1121-1148): all
mutation (and the per-branch remote re-pull) under the mutex, callback
after release.  `populated` is the truthiness of `self._conf_sets`. -/
def config_event_lock_trace (event : Nat) (populated : Bool) : List LockAction :=
  [LockAction.acquire] ++
  (if populated then
    if event = Component.CFG_UPDATE_SET then [LockAction.remote, LockAction.mutate]
    else if event = Component.CFG_UPDATE_PARAM then [LockAction.remote, LockAction.mutate]
    else if event = Component.CFG_ADD_SET then [LockAction.remote, LockAction.mutate]
    else if event = Component.CFG_REMOVE_SET then [LockAction.mutate]
    else if event = Component.CFG_ACTIVATE_SET then [LockAction.mutate]
    else []
   else []) ++
  [LockAction.release, LockAction.callback]

/-- Branch trace of `_set_state_in_ec` (component.py lines 1356-1367):
`in_range` selects the successful path; the BadECIndexError path exits the
`with` block without reaching the callback line. -/
def set_state_in_ec_lock_trace (in_range : Bool) : List LockAction :=
  if in_range then
    [LockAction.acquire, LockAction.mutate, LockAction.release, LockAction.callback]
  else [LockAction.acquire, LockAction.release]

/-- Branch trace of `_ec_event` (component.py lines 1183-1225): the
Attached branch (with a cached participating list) performs its remote
`get_context` pull and the append under the mutex; every branch then
raises a NameError before the callback dispatch, so no branch emits a
callback step. -/
def ec_event_lock_trace (event : Nat) (participating_cached : Bool) : List LockAction :=
  if event = Component.EC_ATTACHED ∧ participating_cached then
    [LockAction.acquire, LockAction.remote, LockAction.mutate, LockAction.release]
  else [LockAction.acquire, LockAction.release]

/-- Branch trace of `_port_event` (component.py lines 1281-1308):
`populated` is the truthiness of `self._ports`; `found` tells whether the
named port resolves (Add: in the remote list; Remove / Connect /
Disconnect: in the cache).  `get_port_by_name` re-enters the mutex, hence
the nested acquire/release in the Remove / Connect / Disconnect branches;
an unresolved name raises out of the block without dispatching. -/
def port_event_lock_trace (event : Nat) (populated found : Bool) : List LockAction :=
  [LockAction.acquire] ++
  (if populated then
    if event = Component.PORT_ADD then
      (if found then [LockAction.remote, LockAction.mutate] else [LockAction.remote])
    else if event = Component.PORT_REMOVE then
      [LockAction.acquire, LockAction.release] ++
        (if found then [LockAction.mutate] else [])
    else if event = Component.PORT_CONNECT ∨ event = Component.PORT_DISCONNECT then
      [LockAction.acquire, LockAction.release] ++
        (if found then [LockAction.remote] else [])
    else []
   else []) ++
  [LockAction.release] ++
  (if populated ∧
      ((event = Component.PORT_ADD ∨ event = Component.PORT_REMOVE ∨
        event = Component.PORT_CONNECT ∨ event = Component.PORT_DISCONNECT) ∧
       ¬found) then []
   else [LockAction.callback])

/-- Trace of `_profile_update` / `_parse_profile` (component.py lines
1264-1279, 1310-1314): the blocking profile re-pull and the field stores
happen under the mutex; the callback after release. -/
def profile_update_lock_trace : List LockAction :=
  [LockAction.acquire, LockAction.remote, LockAction.mutate,
   LockAction.release, LockAction.callback]

/-- Trace of `_heartbeat` (component.py lines 1242-1245): timestamp store
and callback, no lock taken. -/
def heartbeat_lock_trace : List LockAction :=
  [LockAction.mutate, LockAction.callback]

/-- Trace of `_fsm_event` (component.py lines 1247-1249): pure callback
dispatch. -/
def fsm_event_lock_trace : List LockAction :=
  [LockAction.callback]

/-!  Concrete fixtures used by counterexamples and witnesses.  -/

/-- A proxy whose component has no execution contexts, no ports, and empty
remote collections. -/
def proxyEmpty : Proxy where
  get_ports := []
  get_owned_contexts := []
  get_participating_contexts := []
  get_context_handle := fun _ => 0
  get_context := fun _ => 0
  is_alive := fun _ => false
  get_component_state := fun _ => 0
  get_component_profile := []
  get_configuration_set := fun _ => CSProfile.mk "" []

/-- A proxy with one owned context (id 0, handle 0, alive and inactive)
and one port named "out". -/
def proxySmall : Proxy where
  get_ports := ["out"]
  get_owned_contexts := [0]
  get_participating_contexts := []
  get_context_handle := fun _ => 0
  get_context := fun h => 100 + h
  is_alive := fun _ => true
  get_component_state := fun _ => RTC.INACTIVE_STATE
  get_component_profile := [("instance_name", "C10")]
  get_configuration_set := fun _ => CSProfile.mk "" []

/-- The freshly-reset cache (every slot None, as `_reset_data` leaves
it). -/
def cacheEmpty : Cache := {}

/-- A populated cache whose single owned EC has handle 5 (not equal to its
position 0) and whose single participating EC has handle 6: the fixture
separating handle-based lookup from logical-index resolution. -/
def cacheHandle5 : Cache where
  profile := none
  owned_ecs := some [ExecutionContext.mk 10 5 false]
  owned_ec_states := some [Component.INACTIVE]
  participating_ecs := some [ExecutionContext.mk 11 6 false]
  participating_ec_states := some [Component.INACTIVE]
  ports := none
  conf_sets := none
  active_conf_set := none
  last_heartbeat := 0

/-- A populated cache with two owned ECs (handles 0,1) and two
participating ECs (handles 2,3), all inactive — the spec's end-to-end
scenario 4 layout. -/
def cacheTwoTwo : Cache where
  profile := none
  owned_ecs := some [ExecutionContext.mk 20 0 false, ExecutionContext.mk 21 1 false]
  owned_ec_states := some [Component.INACTIVE, Component.INACTIVE]
  participating_ecs := some [ExecutionContext.mk 22 2 false, ExecutionContext.mk 23 3 false]
  participating_ec_states := some [Component.INACTIVE, Component.INACTIVE]
  ports := none
  conf_sets := none
  active_conf_set := none
  last_heartbeat := 0

/-- A populated cache whose owned and participating collections both
contain an EC with handle 7 (the spec's "erroneously duplicated handle"
situation), plus one port named "out". -/
def cacheDupHandle : Cache where
  profile := none
  owned_ecs := some [ExecutionContext.mk 30 7 false]
  owned_ec_states := some [Component.ACTIVE]
  participating_ecs := some [ExecutionContext.mk 31 7 false]
  participating_ec_states := some [Component.INACTIVE]
  ports := some [Port.mk "out"]
  conf_sets := none
  active_conf_set := none
  last_heartbeat := 0

/-- With slots populated, the per-read remote overhead of the owned-EC
collection: a Python-falsy (empty) cached list re-pulls the owned context
list on every read, a non-empty one is served locally. -/
def owned_refetch (ol : List ExecutionContext) : List RemoteAction :=
  if ol.isEmpty then [RemoteAction.get_owned_contexts] else []

/-- Per-read remote overhead of the participating-EC collection (see
`owned_refetch`). -/
def participating_refetch (pl : List ExecutionContext) : List RemoteAction :=
  if pl.isEmpty then [RemoteAction.get_participating_contexts] else []

/-- A cache whose EC collections have been read and found empty (slots
hold empty lists): the owned-count 0 / participating-count 0 layout. -/
def cacheNoECs : Cache where
  profile := none
  owned_ecs := some []
  owned_ec_states := some []
  participating_ecs := some []
  participating_ec_states := some []
  ports := none
  conf_sets := none
  active_conf_set := none
  last_heartbeat := 0

/-!  ## Theorems  -/

/-- Characterisation of the `merge_state` fold: starting from an
accumulator in {Created, Inactive, Active, Error} (Unknown is unreachable
from the seed CREATED) and folding over valid states, the result is the
highest-precedence value among accumulator and elements, and never
degrades below Created. -/
theorem foldl_merge_char (l : List Nat) :
    (∀ s ∈ l, s ∈ VALID_STATES) →
    ∀ acc, acc ∈ [Component.CREATED, Component.INACTIVE,
                  Component.ACTIVE, Component.ERROR] →
    l.foldl Component.merge_state acc =
      (if acc = Component.ERROR ∨ Component.ERROR ∈ l then Component.ERROR
       else if acc = Component.ACTIVE ∨ Component.ACTIVE ∈ l then Component.ACTIVE
       else if acc = Component.INACTIVE ∨ Component.INACTIVE ∈ l then Component.INACTIVE
       else Component.CREATED) := by
  induction l with
  | nil =>
    intro _ acc hacc
    fin_cases hacc <;>
      simp [Component.CREATED, Component.INACTIVE, Component.ACTIVE,
            Component.ERROR]
  | cons x xs ih =>
    intro hv acc hacc
    have hx : x ∈ VALID_STATES := hv x (List.mem_cons_self x xs)
    have hxs : ∀ s ∈ xs, s ∈ VALID_STATES :=
      fun s hs => hv s (List.mem_cons_of_mem x hs)
    have hacc2 : Component.merge_state acc x ∈
        [Component.CREATED, Component.INACTIVE, Component.ACTIVE,
         Component.ERROR] := by
      fin_cases hacc <;> fin_cases hx <;> decide
    rw [List.foldl_cons, ih hxs _ hacc2]
    fin_cases hacc <;> fin_cases hx <;>
      simp [Component.merge_state, Component.CREATED, Component.INACTIVE,
            Component.ACTIVE, Component.ERROR, Component.UNKNOWN,
            List.mem_cons]

/-- The merge function exactly as claim C1 words it: Error, else Active,
else Inactive, else Created if Created occurs, else Unknown. -/
def merge_spec_claimed (states : List Nat) : Nat :=
  if Component.ERROR ∈ states then Component.ERROR
  else if Component.ACTIVE ∈ states then Component.ACTIVE
  else if Component.INACTIVE ∈ states then Component.INACTIVE
  else if Component.CREATED ∈ states then Component.CREATED
  else Component.UNKNOWN

/-- C1 counterexample: for the one-element owned sequence [Unknown] the
code's merge (fold with initial accumulator Created) yields Created, while
the claim's precedence chain ("else Created if Created occurs; else
Unknown; in particular a sequence containing only Unknown merges to
Unknown") demands Unknown. -/
theorem c1_only_unknown_merges_to_created :
    Component.merged_state [Component.UNKNOWN] [] = Component.CREATED ∧
    merge_spec_claimed [Component.UNKNOWN] = Component.UNKNOWN ∧
    Component.CREATED ≠ Component.UNKNOWN := by decide

/-- C1 amended: for every non-empty sequence of per-EC states drawn from
{Created, Inactive, Active, Error, Unknown}, the `Component.state` fold
(owned then participating, initial accumulator Created) returns Error if
Error occurs; else Active if Active occurs; else Inactive if Inactive
occurs; else Created — also when the sequence contains only Unknown,
because the initial accumulator Created is never downgraded (Unknown is
never returned for a non-empty sequence of these five states). -/
theorem c1_merged_state_amended (owned participating : List Nat)
    (hv : ∀ s ∈ owned ++ participating, s ∈ VALID_STATES)
    (hne : owned ++ participating ≠ []) :
    Component.merged_state owned participating =
      (if Component.ERROR ∈ owned ++ participating then Component.ERROR
       else if Component.ACTIVE ∈ owned ++ participating then Component.ACTIVE
       else if Component.INACTIVE ∈ owned ++ participating then Component.INACTIVE
       else Component.CREATED) := by
  unfold Component.merged_state
  have hno : ¬(owned = [] ∧ participating = []) := by
    rintro ⟨h1, h2⟩
    exact hne (by simp [h1, h2])
  rw [if_neg hno, ← List.foldl_append,
      foldl_merge_char (owned ++ participating) hv Component.CREATED (by decide)]
  simp [Component.CREATED, Component.ERROR, Component.ACTIVE,
        Component.INACTIVE]

/-- C1 witness: concrete instance of the amended theorem at
owned = [Active, Unknown], participating = [Created]; the merge is
Active. -/
theorem c1_witness :
    Component.merged_state [Component.ACTIVE, Component.UNKNOWN]
      [Component.CREATED] = Component.ACTIVE := by
  have h := c1_merged_state_amended [Component.ACTIVE, Component.UNKNOWN]
    [Component.CREATED] (by decide) (by decide)
  simpa using h

/-- C7: with no owned and no participating execution contexts the merged
overall state is Unknown, not Created — both at the pure fold (empty state
lists) and through the full lazy `state` property against a remote
component with no contexts. -/
theorem c7_empty_state_merges_to_unknown :
    Component.merged_state [] [] = Component.UNKNOWN ∧
    (Component.state proxyEmpty cacheEmpty).1 = Component.UNKNOWN ∧
    Component.UNKNOWN ≠ Component.CREATED := by decide

/-- A populated, non-empty owned-EC slot is served from the cache with no
remote call. -/
theorem owned_ecs_cached (p : Proxy) (c : Cache) (ol : List ExecutionContext)
    (h : c.owned_ecs = some ol) (hne : ol ≠ []) :
    Component.owned_ecs p c = (ol, c, []) := by
  cases ol with
  | nil => exact absurd rfl hne
  | cons a as => simp [Component.owned_ecs, truthy, h]

/-- A populated, non-empty participating-EC slot is served from the cache
with no remote call. -/
theorem participating_ecs_cached (p : Proxy) (c : Cache)
    (pl : List ExecutionContext)
    (h : c.participating_ecs = some pl) (hne : pl ≠ []) :
    Component.participating_ecs p c = (pl, c, []) := by
  cases pl with
  | nil => exact absurd rfl hne
  | cons a as => simp [Component.participating_ecs, truthy, h]

/-- A populated, non-empty owned-EC-states slot is served from the cache
with no remote call. -/
theorem owned_ec_states_cached (p : Proxy) (c : Cache) (os : List Nat)
    (h : c.owned_ec_states = some os) (hne : os ≠ []) :
    Component.owned_ec_states p c = (os, c, []) := by
  cases os with
  | nil => exact absurd rfl hne
  | cons a as => simp [Component.owned_ec_states, truthy, h]

/-- A populated, non-empty participating-EC-states slot is served from the
cache with no remote call. -/
theorem participating_ec_states_cached (p : Proxy) (c : Cache) (ps : List Nat)
    (h : c.participating_ec_states = some ps) (hne : ps ≠ []) :
    Component.participating_ec_states p c = (ps, c, []) := by
  cases ps with
  | nil => exact absurd rfl hne
  | cons a as => simp [Component.participating_ec_states, truthy, h]

/-- A populated, non-empty port slot is served from the cache with no
remote call. -/
theorem ports_cached (p : Proxy) (c : Cache) (pts : List Port)
    (h : c.ports = some pts) (hne : pts ≠ []) :
    Component.ports p c = (pts, c, []) := by
  cases pts with
  | nil => exact absurd rfl hne
  | cons a as => simp [Component.ports, truthy, h]

/-- C8: handle-based EC lookup scans owned first, then participating: an
owned match is returned even if the participating collection also contains
the handle; a participating match is returned only when the owned scan
found nothing; no match in either collection raises `NoECWithHandleError`,
a failure distinct from `BadECIndexError`. -/
theorem c8_get_ec_owned_first (p : Proxy) (c : Cache)
    (ol pl : List ExecutionContext) (h : Nat)
    (hol : c.owned_ecs = some ol) (holne : ol ≠ [])
    (hpl : c.participating_ecs = some pl) (hplne : pl ≠ []) :
    (∀ ec, ol.find? (fun e => e.handle == h) = some ec →
        Component.get_ec p c h = (Except.ok ec, c, [])) ∧
    (ol.find? (fun e => e.handle == h) = none →
      ∀ ec, pl.find? (fun e => e.handle == h) = some ec →
        Component.get_ec p c h = (Except.ok ec, c, [])) ∧
    (ol.find? (fun e => e.handle == h) = none →
      pl.find? (fun e => e.handle == h) = none →
        Component.get_ec p c h = (Except.error PyError.NoECWithHandleError, c, [])) ∧
    (∀ i, (PyError.NoECWithHandleError : PyError) ≠ PyError.BadECIndexError i) := by
  have ho := owned_ecs_cached p c ol hol holne
  have hp := participating_ecs_cached p c pl hpl hplne
  refine ⟨?_, ?_, ?_, ?_⟩
  · intro ec hfind
    simp [Component.get_ec, ho, hfind]
  · intro hnone ec hfind
    simp [Component.get_ec, ho, hp, hnone, hfind]
  · intro h1 h2
    simp [Component.get_ec, ho, hp, h1, h2]
  · intro i hcontra
    exact PyError.noConfusion hcontra

/-- C8 witness: on the duplicated-handle fixture (handle 7 in both
collections) lookup returns the owned entry. -/
theorem c8_witness :
    Component.get_ec proxyEmpty cacheDupHandle 7 =
      (Except.ok (ExecutionContext.mk 30 7 false), cacheDupHandle, []) := by
  have h := (c8_get_ec_owned_first proxyEmpty cacheDupHandle
      [ExecutionContext.mk 30 7 false] [ExecutionContext.mk 31 7 false] 7
      rfl (by decide) rfl (by decide)).1
  exact h (ExecutionContext.mk 30 7 false) (by decide)

/-- C10: looking up a port name absent from the cached port list returns
None from `get_port_by_name` and False from `has_port_by_name`, with no
remote call and no exception — unlike handle-based EC lookup. -/
theorem c10_port_lookup_not_failure (p : Proxy) (c : Cache)
    (pts : List Port) (port_name : String)
    (hp : c.ports = some pts) (hne : pts ≠ [])
    (habs : ∀ prt ∈ pts, prt.name ≠ port_name) :
    Component.get_port_by_name p c port_name = (none, c, []) ∧
    Component.has_port_by_name p c port_name = (false, c, []) := by
  have hc := ports_cached p c pts hp hne
  have hfind : pts.find? (fun port => port.name == port_name) = none := by
    apply List.find?_eq_none.mpr
    intro prt hmem
    simp [habs prt hmem]
  constructor
  · simp [Component.get_port_by_name, hc, hfind]
  · simp [Component.has_port_by_name, Component.get_port_by_name, hc, hfind]

/-- C10 witness: the fixture's port list holds only "out", so looking up
"missing" yields None / False. -/
theorem c10_witness :
    Component.get_port_by_name proxyEmpty cacheDupHandle "missing" =
      (none, cacheDupHandle, []) ∧
    Component.has_port_by_name proxyEmpty cacheDupHandle "missing" =
      (false, cacheDupHandle, []) := by
  exact c10_port_lookup_not_failure proxyEmpty cacheDupHandle
    [Port.mk "out"] "missing" rfl (by decide) (by decide)

/-- Writing inside bounds keeps a list non-empty. -/
theorem set_ne_nil (l : List α) (i : Nat) (a : α) (h : l ≠ []) :
    l.set i a ≠ [] := by
  cases l with
  | nil => exact absurd rfl h
  | cons x xs => cases i <;> simp

/-- Reading back an in-bounds write. -/
theorem getD_set_self (l : List Nat) (i a : Nat) (h : i < l.length) :
    (l.set i a).getD i 0 = a := by
  rw [List.getD_eq_getElem?_getD, List.getElem?_set_eq_of_lt a h]
  rfl

/-- C2 amended: an RTC_STATUS push "STATUS:h" is decoded into
(status, h), but the handler `_set_state_in_ec` treats h as a *logical EC
index* under the owned-then-participating index rule — not as a handle
lookup.  With populated EC and state caches and h inside the combined
index range, the indexed EC's cached state is overwritten in place with no
remote call, and the new state is returned by the next `state_in_ec` read
of that index (which also issues no remote call). -/
theorem c2_rtc_status_push_amended (now : Nat) (p : Proxy) (c : Cache)
    (ol pl : List ExecutionContext) (os ps : List Nat)
    (hint status hstr : String) (h : Nat)
    (hol : c.owned_ecs = some ol) (holne : ol ≠ [])
    (hpl : c.participating_ecs = some pl) (hplne : pl ≠ [])
    (hos : c.owned_ec_states = some os) (hosne : os ≠ [])
    (hps : c.participating_ec_states = some ps) (hpsne : ps ≠ [])
    (hlo : os.length = ol.length) (hlp : ps.length = pl.length)
    (hsplit : py_split hint ':' = [status, hstr])
    (hnum : py_int? hstr = some h)
    (hh : h < ol.length + pl.length) :
    ∀ c2 acts r,
      RTCObserver.update_status now p c "RTC_STATUS" hint = (c2, acts, r) →
      acts = [] ∧
      r = Except.ok ["rtc_status"] ∧
      (h < ol.length →
        c2 = { c with owned_ec_states := some (os.set h (RTCObserver.decode_rtc_status status)) }) ∧
      (ol.length ≤ h →
        c2 = { c with participating_ec_states := some (ps.set (h - ol.length) (RTCObserver.decode_rtc_status status)) }) ∧
      Component.state_in_ec p c2 h =
        (c2, [], Except.ok (RTCObserver.decode_rtc_status status)) := by
  have ho := owned_ecs_cached p c ol hol holne
  have hp2 := participating_ecs_cached p c pl hpl hplne
  have hso := owned_ec_states_cached p c os hos hosne
  have hsp := participating_ec_states_cached p c ps hps hpsne
  have hupd : RTCObserver.update_status now p c "RTC_STATUS" hint =
      Component.set_state_in_ec p c h (RTCObserver.decode_rtc_status status) := by
    simp [RTCObserver.update_status, hsplit, hnum]
  intro c2 acts r heq
  rw [hupd] at heq
  by_cases hcase : h < ol.length
  · have hni : ¬ h ≥ ol.length := by omega
    have hhs : h < os.length := by omega
    have hset : Component.set_state_in_ec p c h (RTCObserver.decode_rtc_status status) =
        ({ c with owned_ec_states := some (os.set h (RTCObserver.decode_rtc_status status)) },
         [], Except.ok ["rtc_status"]) := by
      simp [Component.set_state_in_ec, ho, hso, hni, hhs]
    rw [hset] at heq
    injection heq with h1 h23
    injection h23 with h2 h3
    subst h1
    subst h2
    subst h3
    refine ⟨rfl, rfl, fun _ => rfl, fun hle => absurd hcase (by omega), ?_⟩
    have hol2 := owned_ecs_cached p
      { c with owned_ec_states := some (os.set h (RTCObserver.decode_rtc_status status)) }
      ol hol holne
    have hso2 := owned_ec_states_cached p
      { c with owned_ec_states := some (os.set h (RTCObserver.decode_rtc_status status)) }
      (os.set h (RTCObserver.decode_rtc_status status)) rfl
      (set_ne_nil os h _ hosne)
    simp [Component.state_in_ec, hol2, hso2, hni, hhs,
          List.getElem?_set_eq_of_lt _ hhs]
  · have hge : h ≥ ol.length := by omega
    have hni2 : ¬ h - ol.length ≥ pl.length := by omega
    have hhs : h - ol.length < ps.length := by omega
    have hset : Component.set_state_in_ec p c h (RTCObserver.decode_rtc_status status) =
        ({ c with participating_ec_states := some (ps.set (h - ol.length) (RTCObserver.decode_rtc_status status)) },
         [], Except.ok ["rtc_status"]) := by
      simp [Component.set_state_in_ec, ho, hp2, hsp, hge, hni2, hhs]
    rw [hset] at heq
    injection heq with h1 h23
    injection h23 with h2 h3
    subst h1
    subst h2
    subst h3
    refine ⟨rfl, rfl, fun hlt => absurd hlt hcase, fun _ => rfl, ?_⟩
    have hol2 := owned_ecs_cached p
      { c with participating_ec_states := some (ps.set (h - ol.length) (RTCObserver.decode_rtc_status status)) }
      ol hol holne
    have hpl2 := participating_ecs_cached p
      { c with participating_ec_states := some (ps.set (h - ol.length) (RTCObserver.decode_rtc_status status)) }
      pl hpl hplne
    have hsp2 := participating_ec_states_cached p
      { c with participating_ec_states := some (ps.set (h - ol.length) (RTCObserver.decode_rtc_status status)) }
      (ps.set (h - ol.length) (RTCObserver.decode_rtc_status status)) rfl
      (set_ne_nil ps _ _ hpsne)
    simp [Component.state_in_ec, hol2, hpl2, hsp2, hge, hni2, hhs,
          List.getElem?_set_eq_of_lt _ hhs]

/-- C2 witness: the spec's end-to-end scenario 2 shape — push "ACTIVE:0"
onto the populated 2+2 fixture updates owned slot 0 in place with no
remote call, and the next indexed state read returns Active. -/
theorem c2_witness :
    RTCObserver.update_status 0 proxyEmpty cacheTwoTwo "RTC_STATUS" "ACTIVE:0" =
      ({ cacheTwoTwo with owned_ec_states := some [Component.ACTIVE, Component.INACTIVE] },
       [], Except.ok ["rtc_status"]) ∧
    Component.state_in_ec proxyEmpty
      { cacheTwoTwo with owned_ec_states := some [Component.ACTIVE, Component.INACTIVE] } 0 =
      ({ cacheTwoTwo with owned_ec_states := some [Component.ACTIVE, Component.INACTIVE] },
       [], Except.ok Component.ACTIVE) := by
  have h := c2_rtc_status_push_amended 0 proxyEmpty cacheTwoTwo
    [ExecutionContext.mk 20 0 false, ExecutionContext.mk 21 1 false]
    [ExecutionContext.mk 22 2 false, ExecutionContext.mk 23 3 false]
    [Component.INACTIVE, Component.INACTIVE]
    [Component.INACTIVE, Component.INACTIVE]
    "ACTIVE:0" "ACTIVE" "0" 0
    rfl (by decide) rfl (by decide) rfl (by decide) rfl (by decide)
    (by decide) (by decide) rfl rfl (by decide)
  have heval : RTCObserver.update_status 0 proxyEmpty cacheTwoTwo "RTC_STATUS" "ACTIVE:0" =
      ({ cacheTwoTwo with owned_ec_states := some [Component.ACTIVE, Component.INACTIVE] },
       [], Except.ok ["rtc_status"]) := by decide
  obtain ⟨-, -, -, -, hnext⟩ := h _ _ _ heval
  exact ⟨heval, hnext⟩

/-- C2 counterexample: the owned EC of `cacheHandle5` has handle 5 at
position 0.  The claim says the RTC_STATUS push "ACTIVE:5" overwrites the
state of the EC *whose handle is 5* (which the owned-then-participating
handle lookup does find); the code instead treats 5 as a logical index
and raises `BadECIndexError 4`, updating nothing. -/
theorem c2_counterexample :
    RTCObserver.update_status 0 proxyEmpty cacheHandle5 "RTC_STATUS" "ACTIVE:5" =
      (cacheHandle5, [], Except.error (PyError.BadECIndexError 4)) ∧
    (Component.get_ec proxyEmpty cacheHandle5 5).1 =
      Except.ok (ExecutionContext.mk 10 5 false) := by decide

/-- C3 counterexample: when the remote proxy returns an *empty* port list,
the Python-truthiness cache slot never counts as populated, so reading the
port list twice issues two remote calls — not "exactly one remote call in
total" as claimed (the two reads do return identical values). -/
theorem c3_empty_list_refetches :
    (Component.ports proxyEmpty cacheEmpty).2.2 = [RemoteAction.get_ports] ∧
    (Component.ports proxyEmpty
        (Component.ports proxyEmpty cacheEmpty).2.1).2.2 =
      [RemoteAction.get_ports] ∧
    (Component.ports proxyEmpty cacheEmpty).1 =
      (Component.ports proxyEmpty
        (Component.ports proxyEmpty cacheEmpty).2.1).1 ∧
    (RemoteAction.get_ports :: [RemoteAction.get_ports]).length ≠ 1 := by decide

/-- C3 amended: reading a cached field twice with no intervening
invalidate or push event returns identical values, and the second read is
served from the cache with *zero* remote calls — provided the first fetch
returned a non-empty collection (for the port list the two reads then
issue exactly the one `get_ports` call in total; the owned-EC fetch also
issues one `get_context_handle` per wrapped context).  When the remote
returns an empty collection, the slot stays falsy under Python truthiness
and every read re-issues the fetch (values still identical — see the
counterexample). -/
theorem c3_lazy_cache_amended (p : Proxy) (c : Cache)
    (v1 v2 : List Port) (c1 c2 : Cache) (a1 a2 : List RemoteAction)
    (w1 w2 : List ExecutionContext) (d1 d2 : Cache)
    (b1 b2 : List RemoteAction)
    (hp : c.ports = none) (hpne : p.get_ports ≠ [])
    (h1 : Component.ports p c = (v1, c1, a1))
    (h2 : Component.ports p c1 = (v2, c2, a2))
    (hoe : c.owned_ecs = none) (hone : p.get_owned_contexts ≠ [])
    (g1 : Component.owned_ecs p c = (w1, d1, b1))
    (g2 : Component.owned_ecs p d1 = (w2, d2, b2)) :
    a1 = [RemoteAction.get_ports] ∧ a2 = [] ∧ v2 = v1 ∧ c2 = c1 ∧
    b2 = [] ∧ w2 = w1 ∧ d2 = d1 := by
  have hver : Component.ports p c =
      (p.get_ports.map (fun port => parse_port port),
       { c with ports := some (p.get_ports.map (fun port => parse_port port)) },
       [RemoteAction.get_ports]) := by
    simp [Component.ports, truthy, hp]
  rw [hver] at h1
  injection h1 with e1 e23
  injection e23 with e2 e3
  subst e1
  subst e2
  subst e3
  have hv1ne : p.get_ports.map (fun port => parse_port port) ≠ [] := by
    simpa using hpne
  have hc2 := ports_cached p
    { c with ports := some (p.get_ports.map (fun port => parse_port port)) }
    (p.get_ports.map (fun port => parse_port port)) rfl hv1ne
  rw [hc2] at h2
  injection h2 with f1 f23
  injection f23 with f2 f3
  subst f1
  subst f2
  subst f3
  have gver : Component.owned_ecs p c =
      (p.get_owned_contexts.map
         (fun ec => ExecutionContext.mk ec (p.get_context_handle ec) false),
       { c with owned_ecs := some (p.get_owned_contexts.map
           (fun ec => ExecutionContext.mk ec (p.get_context_handle ec) false)) },
       RemoteAction.get_owned_contexts ::
         p.get_owned_contexts.map (fun ec => RemoteAction.get_context_handle ec)) := by
    simp [Component.owned_ecs, truthy, hoe]
  rw [gver] at g1
  injection g1 with k1 k23
  injection k23 with k2 k3
  subst k1
  subst k2
  subst k3
  have hw1ne : p.get_owned_contexts.map
      (fun ec => ExecutionContext.mk ec (p.get_context_handle ec) false) ≠ [] := by
    simpa using hone
  have gd2 := owned_ecs_cached p
    { c with owned_ecs := some (p.get_owned_contexts.map
        (fun ec => ExecutionContext.mk ec (p.get_context_handle ec) false)) }
    (p.get_owned_contexts.map
      (fun ec => ExecutionContext.mk ec (p.get_context_handle ec) false))
    rfl hw1ne
  rw [gd2] at g2
  injection g2 with m1 m23
  injection m23 with m2 m3
  subst m1
  subst m2
  subst m3
  exact ⟨rfl, rfl, rfl, rfl, rfl, rfl, rfl⟩

/-- C3 witness: on a proxy with one port and one owned context, the first
port read issues the single fetch, the second read issues no remote call
and returns the same value; the second owned-EC read also issues no
remote call. -/
theorem c3_witness :
    (Component.ports proxySmall cacheEmpty).2.2 = [RemoteAction.get_ports] ∧
    (Component.ports proxySmall
        (Component.ports proxySmall cacheEmpty).2.1).2.2 = [] ∧
    (Component.ports proxySmall
        (Component.ports proxySmall cacheEmpty).2.1).1 =
      (Component.ports proxySmall cacheEmpty).1 ∧
    (Component.owned_ecs proxySmall
        (Component.owned_ecs proxySmall cacheEmpty).2.1).2.2 = [] := by
  have h := c3_lazy_cache_amended proxySmall cacheEmpty
    (Component.ports proxySmall cacheEmpty).1
    (Component.ports proxySmall (Component.ports proxySmall cacheEmpty).2.1).1
    (Component.ports proxySmall cacheEmpty).2.1
    (Component.ports proxySmall (Component.ports proxySmall cacheEmpty).2.1).2.1
    (Component.ports proxySmall cacheEmpty).2.2
    (Component.ports proxySmall (Component.ports proxySmall cacheEmpty).2.1).2.2
    (Component.owned_ecs proxySmall cacheEmpty).1
    (Component.owned_ecs proxySmall (Component.owned_ecs proxySmall cacheEmpty).2.1).1
    (Component.owned_ecs proxySmall cacheEmpty).2.1
    (Component.owned_ecs proxySmall (Component.owned_ecs proxySmall cacheEmpty).2.1).2.1
    (Component.owned_ecs proxySmall cacheEmpty).2.2
    (Component.owned_ecs proxySmall (Component.owned_ecs proxySmall cacheEmpty).2.1).2.2
    rfl (by decide) rfl rfl rfl (by decide) rfl rfl
  exact ⟨h.1, h.2.1, h.2.2.1, h.2.2.2.2.1⟩

/-- C4: `_ec_event` as written always raises a NameError — `del_ec` is
undefined in the Detached / Startup / Shutdown lookup helper and `state`
is undefined at the callback dispatch line — so Detached never removes the
EC, Startup/Shutdown never toggle the running flag, the `ec_event`
callbacks are never invoked, and even the Attached branch (which does
append to the participating collection in place) raises after mutating;
the error escapes through the observer entry point. -/
theorem c4_ec_event_raises_name_error :
    Component.ec_event proxyEmpty cacheHandle5 6 Component.EC_DETACHED =
      (cacheHandle5, [], Except.error (PyError.NameError "del_ec")) ∧
    Component.ec_event proxyEmpty cacheHandle5 6 Component.EC_STARTUP =
      (cacheHandle5, [], Except.error (PyError.NameError "del_ec")) ∧
    Component.ec_event proxyEmpty cacheHandle5 6 Component.EC_SHUTDOWN =
      (cacheHandle5, [], Except.error (PyError.NameError "del_ec")) ∧
    Component.ec_event proxyEmpty cacheHandle5 6 Component.EC_RATE_CHANGED =
      (cacheHandle5, [], Except.error (PyError.NameError "state")) ∧
    Component.ec_event proxyEmpty cacheHandle5 8 Component.EC_ATTACHED =
      ({ cacheHandle5 with participating_ecs := some [ExecutionContext.mk 11 6 false, ExecutionContext.mk 0 8 false] },
       [RemoteAction.get_context 8], Except.error (PyError.NameError "state")) ∧
    RTCObserver.update_status 0 proxyEmpty cacheHandle5 "EC_STATUS" "DETACHED:6" =
      (cacheHandle5, [], Except.error (PyError.NameError "del_ec")) := by
  exact ⟨by decide, by decide, by decide, by decide, by decide, by decide⟩

/-- C6 counterexample: a PORT_PROFILE Add push naming a port absent from
the remote port list makes the cache mutation fail (ValueError), and that
failure escapes the observer's `update_status` entry point instead of
being logged and dropped — the entry point has no exception handling. -/
theorem c6_push_failure_escapes :
    RTCObserver.update_status 0 proxyEmpty cacheDupHandle "PORT_PROFILE" "ADD:ghost" =
      (cacheDupHandle, [RemoteAction.get_ports],
       Except.error (PyError.ValueError "ghost")) := by decide

/-- C6 amended: the notification entry point performs no error handling —
for EC_STATUS and PORT_PROFILE pushes `update_status` is exactly the
per-kind handler after decoding, so any failure the cache mutation raises
propagates to the transport-owned caller for that event rather than being
logged and dropped. -/
theorem c6_no_catch_amended (now : Nat) (p : Proxy) (c : Cache)
    (hint ev hstr : String) (k : Nat)
    (hsplit : py_split hint ':' = [ev, hstr])
    (hnum : py_int? hstr = some k) :
    RTCObserver.update_status now p c "EC_STATUS" hint =
      Component.ec_event p c k (RTCObserver.decode_ec_status ev) ∧
    RTCObserver.update_status now p c "PORT_PROFILE" hint =
      Component.port_event p c hstr (RTCObserver.decode_port_profile ev) := by
  constructor
  · simp [RTCObserver.update_status, hsplit, hnum]
  · simp [RTCObserver.update_status, hsplit]

/-- C6 witness: concrete decoded dispatches for the hint "STARTUP:2". -/
theorem c6_witness :
    RTCObserver.update_status 0 proxyEmpty cacheTwoTwo "EC_STATUS" "STARTUP:2" =
      Component.ec_event proxyEmpty cacheTwoTwo 2
        (RTCObserver.decode_ec_status "STARTUP") ∧
    RTCObserver.update_status 0 proxyEmpty cacheTwoTwo "PORT_PROFILE" "STARTUP:2" =
      Component.port_event proxyEmpty cacheTwoTwo "2"
        (RTCObserver.decode_port_profile "STARTUP") := by
  exact c6_no_catch_amended 0 proxyEmpty cacheTwoTwo "STARTUP:2" "STARTUP" "2" 2
    rfl rfl

/-- Lock discipline of `_config_event`, all branches. -/
theorem config_event_trace_ok (event : Nat) (b : Bool) :
    callbacksOutsideLockAux 0 (config_event_lock_trace event b) = true ∧
    mutationsBeforeCallbacksAux false (config_event_lock_trace event b) = true := by
  cases b <;> unfold config_event_lock_trace <;> split_ifs <;> decide

/-- Lock discipline of `_set_state_in_ec`, both branches. -/
theorem set_state_trace_ok (b : Bool) :
    callbacksOutsideLockAux 0 (set_state_in_ec_lock_trace b) = true ∧
    mutationsBeforeCallbacksAux false (set_state_in_ec_lock_trace b) = true := by
  cases b <;> decide

/-- Lock discipline of `_ec_event`, all branches. -/
theorem ec_event_trace_ok (event : Nat) (b : Bool) :
    callbacksOutsideLockAux 0 (ec_event_lock_trace event b) = true ∧
    mutationsBeforeCallbacksAux false (ec_event_lock_trace event b) = true := by
  cases b <;> unfold ec_event_lock_trace <;> split_ifs <;> decide

/-- Lock discipline of `_port_event`, all branches. -/
theorem port_event_trace_ok (event : Nat) (b f : Bool) :
    callbacksOutsideLockAux 0 (port_event_lock_trace event b f) = true ∧
    mutationsBeforeCallbacksAux false (port_event_lock_trace event b f) = true := by
  cases b <;> cases f <;> unfold port_event_lock_trace <;> split_ifs <;> decide

/-- C9: in every branch of every push-event handler, callbacks are
dispatched only at lock depth zero (never while the mirror's mutex is
held) and no cache mutation or lock acquisition follows a callback — the
mutation completes and the exclusive region is released before user
callbacks run. -/
theorem c9_callbacks_outside_lock (event : Nat)
    (populated found in_range participating_cached : Bool) :
    (callbacksOutsideLockAux 0 (config_event_lock_trace event populated) = true ∧
     mutationsBeforeCallbacksAux false (config_event_lock_trace event populated) = true) ∧
    (callbacksOutsideLockAux 0 (set_state_in_ec_lock_trace in_range) = true ∧
     mutationsBeforeCallbacksAux false (set_state_in_ec_lock_trace in_range) = true) ∧
    (callbacksOutsideLockAux 0 (ec_event_lock_trace event participating_cached) = true ∧
     mutationsBeforeCallbacksAux false (ec_event_lock_trace event participating_cached) = true) ∧
    (callbacksOutsideLockAux 0 (port_event_lock_trace event populated found) = true ∧
     mutationsBeforeCallbacksAux false (port_event_lock_trace event populated found) = true) ∧
    (callbacksOutsideLockAux 0 profile_update_lock_trace = true ∧
     mutationsBeforeCallbacksAux false profile_update_lock_trace = true) ∧
    (callbacksOutsideLockAux 0 heartbeat_lock_trace = true ∧
     mutationsBeforeCallbacksAux false heartbeat_lock_trace = true) ∧
    (callbacksOutsideLockAux 0 fsm_event_lock_trace = true ∧
     mutationsBeforeCallbacksAux false fsm_event_lock_trace = true) := by
  exact ⟨config_event_trace_ok event populated,
         set_state_trace_ok in_range,
         ec_event_trace_ok event participating_cached,
         port_event_trace_ok event populated found,
         by decide, by decide, by decide⟩

/-- C9 witness: concrete instance — the port-remove branch with a
populated cache and a resolvable name dispatches its callback only after
the nested lock region is fully released. -/
theorem c9_witness :
    callbacksOutsideLockAux 0
      (port_event_lock_trace Component.PORT_REMOVE true true) = true ∧
    mutationsBeforeCallbacksAux false
      (port_event_lock_trace Component.PORT_REMOVE true true) = true := by
  exact (c9_callbacks_outside_lock Component.PORT_REMOVE true true true true).2.2.2.1

/-- Re-storing a slot's current value leaves the cache unchanged. -/
theorem cache_restore_owned_ecs (c : Cache) (v : Option (List ExecutionContext))
    (h : c.owned_ecs = v) : ({ c with owned_ecs := v } : Cache) = c := by
  cases c
  cases h
  rfl

/-- Re-storing a slot's current value leaves the cache unchanged. -/
theorem cache_restore_participating_ecs (c : Cache)
    (v : Option (List ExecutionContext))
    (h : c.participating_ecs = v) :
    ({ c with participating_ecs := v } : Cache) = c := by
  cases c
  cases h
  rfl

/-- Re-storing a slot's current value leaves the cache unchanged. -/
theorem cache_restore_owned_ec_states (c : Cache) (v : Option (List Nat))
    (h : c.owned_ec_states = v) :
    ({ c with owned_ec_states := v } : Cache) = c := by
  cases c
  cases h
  rfl

/-- Re-storing a slot's current value leaves the cache unchanged. -/
theorem cache_restore_participating_ec_states (c : Cache) (v : Option (List Nat))
    (h : c.participating_ec_states = v) :
    ({ c with participating_ec_states := v } : Cache) = c := by
  cases c
  cases h
  rfl

/-- Reading the owned-EC collection from a populated slot that agrees with
the proxy: a non-empty list is served from the cache with no remote call;
an empty list (Python-falsy) re-pulls the (empty) remote collection on
every read, leaving the cache value unchanged. -/
theorem owned_ecs_agree (p : Proxy) (c : Cache) (ol : List ExecutionContext)
    (hol : c.owned_ecs = some ol)
    (heo : ol = [] → p.get_owned_contexts = []) :
    Component.owned_ecs p c = (ol, c, owned_refetch ol) := by
  cases ol with
  | nil =>
    have he := heo rfl
    have hc := cache_restore_owned_ecs c (some []) hol
    simp [Component.owned_ecs, truthy, hol, he, owned_refetch, hc]
  | cons a as =>
    simp [Component.owned_ecs, truthy, hol, owned_refetch]

/-- Participating-EC analogue of `owned_ecs_agree`. -/
theorem participating_ecs_agree (p : Proxy) (c : Cache)
    (pl : List ExecutionContext)
    (hpl : c.participating_ecs = some pl)
    (hep : pl = [] → p.get_participating_contexts = []) :
    Component.participating_ecs p c = (pl, c, participating_refetch pl) := by
  cases pl with
  | nil =>
    have he := hep rfl
    have hc := cache_restore_participating_ecs c (some []) hpl
    simp [Component.participating_ecs, truthy, hpl, he,
          participating_refetch, hc]
  | cons a as =>
    simp [Component.participating_ecs, truthy, hpl, participating_refetch]

/-- Owned-EC states read under the same slot/proxy agreement: an empty
states slot (forced by an empty EC list of matching length) re-derives the
empty list after the EC re-pull; a non-empty one is cache-served. -/
theorem owned_ec_states_agree (p : Proxy) (c : Cache)
    (ol : List ExecutionContext) (os : List Nat)
    (hol : c.owned_ecs = some ol) (hos : c.owned_ec_states = some os)
    (hlo : os.length = ol.length)
    (heo : ol = [] → p.get_owned_contexts = []) :
    Component.owned_ec_states p c = (os, c, owned_refetch ol) := by
  cases os with
  | nil =>
    have holn : ol = [] := by
      cases ol with
      | nil => rfl
      | cons b bs => simp at hlo
    subst holn
    have h1 := owned_ecs_agree p c [] hol heo
    have hc := cache_restore_owned_ec_states c (some []) hos
    simp [Component.owned_ec_states, truthy, hos, h1, owned_refetch, hc]
  | cons a as =>
    have hrf : owned_refetch ol = [] := by
      cases ol with
      | nil => simp at hlo
      | cons b bs => simp [owned_refetch]
    simp [Component.owned_ec_states, truthy, hos, hrf]

/-- Participating-EC states analogue of `owned_ec_states_agree`. -/
theorem participating_ec_states_agree (p : Proxy) (c : Cache)
    (pl : List ExecutionContext) (ps : List Nat)
    (hpl : c.participating_ecs = some pl)
    (hps : c.participating_ec_states = some ps)
    (hlp : ps.length = pl.length)
    (hep : pl = [] → p.get_participating_contexts = []) :
    Component.participating_ec_states p c = (ps, c, participating_refetch pl) := by
  cases ps with
  | nil =>
    have hpln : pl = [] := by
      cases pl with
      | nil => rfl
      | cons b bs => simp at hlp
    subst hpln
    have h1 := participating_ecs_agree p c [] hpl hep
    have hc := cache_restore_participating_ec_states c (some []) hps
    simp [Component.participating_ec_states, truthy, hps, h1,
          participating_refetch, hc]
  | cons a as =>
    have hrf : participating_refetch pl = [] := by
      cases pl with
      | nil => simp at hlp
      | cons b bs => simp [participating_refetch]
    simp [Component.participating_ec_states, truthy, hps, hrf]

/-- C5: for every owned-count n ≥ 0, participating-count m ≥ 0 and logical
index i ≥ 0 (EC caches populated, possibly with empty collections that
agree with the proxy — an empty Python-falsy slot re-pulls the empty
remote collection on each read, recorded by the `*_refetch` overhead),
every indexed EC operation resolves the index by the single rule:
`i < n` targets owned[i]; `n ≤ i < n+m` targets participating[i-n];
`i ≥ n+m` raises `BadECIndexError` (carrying the shifted index `i-n`, as
the source does) — and in the failure case the cache is returned
unchanged, with no remote call beyond the refetch overhead (none at all
when the collections are non-empty). -/
theorem c5_ec_index_resolution (p : Proxy) (c : Cache)
    (ol pl : List ExecutionContext) (os ps : List Nat) (i : Nat)
    (hol : c.owned_ecs = some ol)
    (hpl : c.participating_ecs = some pl)
    (hos : c.owned_ec_states = some os)
    (hps : c.participating_ec_states = some ps)
    (hlo : os.length = ol.length) (hlp : ps.length = pl.length)
    (heo : ol = [] → p.get_owned_contexts = [])
    (hep : pl = [] → p.get_participating_contexts = []) :
    (i < ol.length →
      Component.activate_in_ec p c i =
        (c, [RemoteAction.activate_component (ol.getD i ecDefault).obj],
         Except.ok ()) ∧
      Component.deactivate_in_ec p c i =
        (c, [RemoteAction.deactivate_component (ol.getD i ecDefault).obj],
         Except.ok ()) ∧
      Component.reset_in_ec p c i =
        (c, [RemoteAction.reset_component (ol.getD i ecDefault).obj],
         Except.ok ()) ∧
      Component.state_in_ec p c i = (c, [], Except.ok (os.getD i 0)) ∧
      Component.refresh_state_in_ec p c i =
        ({ c with
            owned_ec_states := some
              (os.set i (Component.get_ec_state p (ol.getD i ecDefault)).1) },
         (Component.get_ec_state p (ol.getD i ecDefault)).2,
         Except.ok (Component.get_ec_state p (ol.getD i ecDefault)).1) ∧
      Component.get_state_in_ec_string p c i =
        (c, [], Component.state_string_plain (os.getD i 0))) ∧
    (ol.length ≤ i → i < ol.length + pl.length →
      Component.activate_in_ec p c i =
        (c, owned_refetch ol ++
              [RemoteAction.activate_component (pl.getD (i - ol.length) ecDefault).obj],
         Except.ok ()) ∧
      Component.deactivate_in_ec p c i =
        (c, owned_refetch ol ++
              [RemoteAction.deactivate_component (pl.getD (i - ol.length) ecDefault).obj],
         Except.ok ()) ∧
      Component.reset_in_ec p c i =
        (c, owned_refetch ol ++
              [RemoteAction.reset_component (pl.getD (i - ol.length) ecDefault).obj],
         Except.ok ()) ∧
      Component.state_in_ec p c i =
        (c, owned_refetch ol, Except.ok (ps.getD (i - ol.length) 0)) ∧
      Component.refresh_state_in_ec p c i =
        ({ c with
            participating_ec_states := some
              (ps.set (i - ol.length)
                (Component.get_ec_state p (pl.getD (i - ol.length) ecDefault)).1) },
         owned_refetch ol ++
           (Component.get_ec_state p (pl.getD (i - ol.length) ecDefault)).2,
         Except.ok (Component.get_ec_state p (pl.getD (i - ol.length) ecDefault)).1) ∧
      Component.get_state_in_ec_string p c i =
        (c, owned_refetch ol,
         Component.state_string_plain (ps.getD (i - ol.length) 0))) ∧
    (ol.length + pl.length ≤ i →
      Component.activate_in_ec p c i =
        (c, owned_refetch ol ++ participating_refetch pl,
         Except.error (PyError.BadECIndexError (i - ol.length))) ∧
      Component.deactivate_in_ec p c i =
        (c, owned_refetch ol ++ participating_refetch pl,
         Except.error (PyError.BadECIndexError (i - ol.length))) ∧
      Component.reset_in_ec p c i =
        (c, owned_refetch ol ++ participating_refetch pl,
         Except.error (PyError.BadECIndexError (i - ol.length))) ∧
      Component.state_in_ec p c i =
        (c, owned_refetch ol ++ participating_refetch pl,
         Except.error (PyError.BadECIndexError (i - ol.length))) ∧
      Component.refresh_state_in_ec p c i =
        (c, owned_refetch ol ++ participating_refetch pl,
         Except.error (PyError.BadECIndexError (i - ol.length))) ∧
      Component.get_state_in_ec_string p c i =
        (c, owned_refetch ol ++ participating_refetch pl,
         Except.error (PyError.BadECIndexError (i - ol.length)))) := by
  refine ⟨?_, ?_, ?_⟩
  · intro hi
    have hone : ol ≠ [] := by
      intro hnil
      rw [hnil] at hi
      simp at hi
    have hosne : os ≠ [] := by
      intro hnil
      subst hnil
      simp at hlo
      omega
    have ho := owned_ecs_cached p c ol hol hone
    have hso := owned_ec_states_cached p c os hos hosne
    have hni : ¬ i ≥ ol.length := by omega
    have hios : i < os.length := by omega
    refine ⟨?_, ?_, ?_, ?_, ?_, ?_⟩
    · simp [Component.activate_in_ec, ho, hni]
    · simp [Component.deactivate_in_ec, ho, hni]
    · simp [Component.reset_in_ec, ho, hni]
    · simp [Component.state_in_ec, ho, hso, hni, hios]
    · cases hge : Component.get_ec_state p (ol.getD i ecDefault) with
      | mk st sa =>
        simp only [List.getD_eq_getElem?_getD] at hge
        simp [Component.refresh_state_in_ec, ho, hso, hni, hios, hge]
    · simp [Component.get_state_in_ec_string, ho, hso, hni, hios]
  · intro h1 h2
    have hplne : pl ≠ [] := by
      intro hnil
      rw [hnil] at h2
      simp at h2
      omega
    have hpsne : ps ≠ [] := by
      intro hnil
      subst hnil
      simp at hlp
      omega
    have ho := owned_ecs_agree p c ol hol heo
    have hp := participating_ecs_cached p c pl hpl hplne
    have hsp := participating_ec_states_cached p c ps hps hpsne
    have hge1 : i ≥ ol.length := h1
    have hni2 : ¬ i - ol.length ≥ pl.length := by omega
    have hips : i - ol.length < ps.length := by omega
    refine ⟨?_, ?_, ?_, ?_, ?_, ?_⟩
    · simp [Component.activate_in_ec, ho, hp, hge1, hni2]
    · simp [Component.deactivate_in_ec, ho, hp, hge1, hni2]
    · simp [Component.reset_in_ec, ho, hp, hge1, hni2]
    · simp [Component.state_in_ec, ho, hp, hsp, hge1, hni2, hips]
    · cases hge : Component.get_ec_state p (pl.getD (i - ol.length) ecDefault) with
      | mk st sa =>
        simp only [List.getD_eq_getElem?_getD] at hge
        simp [Component.refresh_state_in_ec, ho, hp, hsp, hge1, hni2, hips, hge]
    · simp [Component.get_state_in_ec_string, ho, hp, hsp, hge1, hni2, hips]
  · intro h3
    have ho := owned_ecs_agree p c ol hol heo
    have hp := participating_ecs_agree p c pl hpl hep
    have hge1 : i ≥ ol.length := by omega
    have hge2 : i - ol.length ≥ pl.length := by omega
    refine ⟨?_, ?_, ?_, ?_, ?_, ?_⟩
    · simp [Component.activate_in_ec, ho, hp, hge1, hge2]
    · simp [Component.deactivate_in_ec, ho, hp, hge1, hge2]
    · simp [Component.reset_in_ec, ho, hp, hge1, hge2]
    · simp [Component.state_in_ec, ho, hp, hge1, hge2]
    · simp [Component.refresh_state_in_ec, ho, hp, hge1, hge2]
    · simp [Component.get_state_in_ec_string, ho, hp, hge1, hge2]

/-- C5 witness: two concrete instances of the resolution rule — the
spec's end-to-end scenario 4 (index 5 on a component with 2 owned and 2
participating ECs fails with `BadECIndexError 3`, cache untouched, no
remote call), and the n = 0, m = 0 layout (every index, here 0, fails
with `BadECIndexError 0`, the only remote traffic being the two
empty-collection re-pulls, cache untouched). -/
theorem c5_witness :
    Component.activate_in_ec proxyEmpty cacheTwoTwo 5 =
      (cacheTwoTwo, [], Except.error (PyError.BadECIndexError 3)) ∧
    Component.state_in_ec proxyEmpty cacheTwoTwo 5 =
      (cacheTwoTwo, [], Except.error (PyError.BadECIndexError 3)) ∧
    Component.activate_in_ec proxyEmpty cacheNoECs 0 =
      (cacheNoECs,
       [RemoteAction.get_owned_contexts, RemoteAction.get_participating_contexts],
       Except.error (PyError.BadECIndexError 0)) ∧
    Component.state_in_ec proxyEmpty cacheNoECs 0 =
      (cacheNoECs,
       [RemoteAction.get_owned_contexts, RemoteAction.get_participating_contexts],
       Except.error (PyError.BadECIndexError 0)) := by
  have h := (c5_ec_index_resolution proxyEmpty cacheTwoTwo
      [ExecutionContext.mk 20 0 false, ExecutionContext.mk 21 1 false]
      [ExecutionContext.mk 22 2 false, ExecutionContext.mk 23 3 false]
      [Component.INACTIVE, Component.INACTIVE]
      [Component.INACTIVE, Component.INACTIVE] 5
      rfl rfl rfl rfl (by decide) (by decide) (by decide) (by decide)).2.2
      (by decide)
  have h0 := (c5_ec_index_resolution proxyEmpty cacheNoECs
      [] [] [] [] 0
      rfl rfl rfl rfl (by decide) (by decide) (by decide) (by decide)).2.2
      (by decide)
  refine ⟨?_, ?_, ?_, ?_⟩
  · simpa using h.1
  · simpa using h.2.2.2.1
  · simpa [owned_refetch, participating_refetch] using h0.1
  · simpa [owned_refetch, participating_refetch] using h0.2.2.2.1
